import Mathlib

/-!
Shallow embedding of `lambda_functions/analyzer/binary_info.py` (class
`BinaryInfo`) and proofs of the specification claims about it.

External collaborators (S3 download, hash computation, the YARA engine,
the Dynamo match table and SNS publishing) are modelled as oracles passed
to the embedded operations: each oracle is either a result value or an
error, mirroring a Python call that returns or raises.  The filesystem is
modelled as a map from paths to optional byte contents.
-/

/-- One `yara.Match` object, as consumed by `binary_info.py`:
`match.namespace`, `match.rule`, `match.strings` (a list of tuples whose
second component `t[1]` is the string identifier), `match.meta`,
`match.tags`.  The field `namespace` is a Lean keyword, so it is named
`ns` here. -/
structure YaraMatch where
  ns : String
  rule : String
  strings : List (Int × String × String)
  meta : List (String × String)
  tags : List String
  deriving DecidableEq, Repr

/-- The state of a `BinaryInfo` instance: the fields set in `__init__`
and mutated by `_download_from_s3`, `__enter__` and nothing else. -/
structure BinaryInfo where
  bucket_name : String
  object_key : String
  s3_identifier : String
  download_path : String
  download_time_ms : Nat
  s3_last_modified : String
  s3_metadata : List (String × String)
  computed_md5 : Option String
  computed_sha : Option String
  yara_matches : List YaraMatch
  deriving DecidableEq, Repr

/-- `BinaryInfo.__init__(bucket_name, object_key, yara_analyzer)`.
The download path is `os.path.join` of the temp directory and `binaryalert_` followed by a fresh uuid4;
the temp directory and the fresh uuid are parameters of the model. -/
def BinaryInfo.init (bucket_name object_key tmpdir uuid : String) : BinaryInfo :=
  { bucket_name := bucket_name
    object_key := object_key
    s3_identifier := "S3:" ++ bucket_name ++ ":" ++ object_key
    download_path := tmpdir ++ "/binaryalert_" ++ uuid
    download_time_ms := 0
    s3_last_modified := ""
    s3_metadata := []
    computed_md5 := none
    computed_sha := none
    yara_matches := [] }

/-- `BinaryInfo.__str__`: the S3 identifier is the string representation. -/
def BinaryInfo.strRepr (b : BinaryInfo) : String :=
  b.s3_identifier

/-- Property `BinaryInfo.filepath`: `self.s3_metadata.get` of the key `filepath` with default `""`. -/
def BinaryInfo.filepath (b : BinaryInfo) : String :=
  (b.s3_metadata.lookup "filepath").getD ""

/-- Property `BinaryInfo.matched_rule_ids`:
the set of `format(match.namespace, match.rule)` strings joined by a colon, over `self.yara_matches`. -/
def BinaryInfo.matched_rule_ids (b : BinaryInfo) : Finset String :=
  (b.yara_matches.map fun m => m.ns ++ ":" ++ m.rule).toFinset

/-- A JSON-shaped value, the result type of `BinaryInfo.summary`. -/
inductive Json where
  | null : Json
  | str : String → Json
  | num : Int → Json
  | arr : List Json → Json
  | obj : List (String × Json) → Json

/-- Key list of a JSON object (insertion order), empty for non-objects. -/
def Json.keys : Json → List String
  | .obj kvs => kvs.map Prod.fst
  | _ => []

/-- Lookup of a key in a JSON object. -/
def Json.get (j : Json) (k : String) : Option Json :=
  match j with
  | .obj kvs => kvs.lookup k
  | _ => none

/-- A Python value that is `None` or a string (the digest fields start as
`None` and become strings). -/
def Json.ofOptStr : Option String → Json
  | none => .null
  | some s => .str s

/-- The `MatchedStrings` list of one rule block:
`list(sorted(set(t[1] for t in match.strings)))`. -/
def YaraMatch.matchedStrings (m : YaraMatch) : List String :=
  List.insertionSort (fun a b => a ≤ b) (m.strings.map fun t => t.2.1).dedup

/-- One per-rule block of `summary`:
the dict with keys `MatchedStrings`, `Meta`, `RuleFile`, `RuleName`, `RuleTags`. -/
def YaraMatch.ruleBlock (m : YaraMatch) : Json :=
  .obj [
    ("MatchedStrings", .arr (m.matchedStrings.map Json.str)),
    ("Meta", .obj (m.meta.map fun kv => (kv.1, Json.str kv.2))),
    ("RuleFile", .str m.ns),
    ("RuleName", .str m.rule),
    ("RuleTags", .arr (m.tags.map Json.str))]

/-- `BinaryInfo.summary`: the result dict with `FileInfo`, `MatchedRules`
(one entry `Rule` followed by the index per match, from `enumerate` of `self.yara_matches` starting at 1)
and `NumMatchedRules`. -/
def BinaryInfo.summary (b : BinaryInfo) : Json :=
  .obj [
    ("FileInfo", .obj [
      ("MD5", Json.ofOptStr b.computed_md5),
      ("S3LastModified", .str b.s3_last_modified),
      ("S3Location", .str b.s3_identifier),
      ("S3Metadata", .obj (b.s3_metadata.map fun kv => (kv.1, Json.str kv.2))),
      ("SHA256", Json.ofOptStr b.computed_sha)]),
    ("MatchedRules", .obj ((b.yara_matches.enumFrom 1).map fun im =>
      ("Rule" ++ toString im.1, im.2.ruleBlock))),
    ("NumMatchedRules", .num b.yara_matches.length)]

/-- A fatal error raised by an external collaborator during `__enter__`. -/
inductive AnalyzerErr where
  | notFound : AnalyzerErr
  | permission : AnalyzerErr
  | transport : AnalyzerErr
  | ioFailure : AnalyzerErr
  | engineFailure : AnalyzerErr
  deriving DecidableEq, Repr

/-- One external call made during `__enter__`, in order: the S3 download,
the hash computation, and the YARA scan with its `original_target_path`
hint. -/
inductive Step where
  | download : Step
  | hash : Step
  | scan : String → Step
  deriving DecidableEq, Repr

/-- `BinaryInfo.__enter__`: download from S3 (setting `s3_last_modified`,
`s3_metadata` and `download_time_ms`), compute both hashes (setting
`computed_sha` and `computed_md5`), run the YARA analyzer with
`original_target_path=self.filepath` (setting `yara_matches`).  Each
oracle either returns or raises; a raise aborts the remaining steps and
propagates, leaving the fields mutated so far.  The result is the record
state, the trace of external calls made, and the propagated error if any. -/
def BinaryInfo.enter (b : BinaryInfo)
    (download : Except AnalyzerErr (String × List (String × String) × Nat))
    (hashes : Except AnalyzerErr (String × String))
    (analyze : String → Except AnalyzerErr (List YaraMatch)) :
    BinaryInfo × List Step × Option AnalyzerErr :=
  match download with
  | .error e => (b, [.download], some e)
  | .ok (lm, md, t) =>
    let b1 := { b with s3_last_modified := lm, s3_metadata := md, download_time_ms := t }
    match hashes with
    | .error e => (b1, [.download, .hash], some e)
    | .ok sh =>
      let b2 := { b1 with computed_sha := some sh.1, computed_md5 := some sh.2 }
      match analyze b2.filepath with
      | .error e => (b2, [.download, .hash, .scan b2.filepath], some e)
      | .ok ms =>
        ({ b2 with yara_matches := ms }, [.download, .hash, .scan b2.filepath], none)

/-- The local filesystem: a map from paths to optional file contents. -/
def FS : Type := String → Option (List Nat)

/-- Truncating a file to zero length (`open` of the path in write-binary mode followed by `truncate`). -/
def truncateFile (fs : FS) (p : String) : FS :=
  fun q => if q = p then some [] else fs q

/-- Removing a file (`os.remove`). -/
def removeFile (fs : FS) (p : String) : FS :=
  fun q => if q = p then none else fs q

/-- A cleanup failure: an I/O error while truncating or removing. -/
inductive CleanupErr where
  | truncateFailed : CleanupErr
  | removeFailed : CleanupErr
  deriving DecidableEq, Repr

/-- `BinaryInfo.__exit__`: if `os.path.isfile(self.download_path)`, open
the file for writing and truncate it, then `os.remove` it.  The two I/O
operations may each fail; the method has no exception handler, so a
failure propagates to the caller (`some` error in the result).  The
result is the filesystem state left behind and the propagated error if
any. -/
def BinaryInfo.exit (b : BinaryInfo) (fs : FS) (truncate_ok remove_ok : Bool) :
    FS × Option CleanupErr :=
  if (fs b.download_path).isSome then
    if truncate_ok then
      let fs1 := truncateFile fs b.download_path
      if remove_ok then (removeFile fs1 b.download_path, none)
      else (fs1, some .removeFailed)
    else (fs, some .truncateFailed)
  else (fs, none)

/-- A persistence failure raised by `DynamoMatchTable.save_matches`. -/
inductive PersistErr where
  | conditionalCheckFailed : PersistErr
  | unavailable : PersistErr
  deriving DecidableEq, Repr

/-- An SNS publication performed by `save_matches_and_alert`
(`publish_alert_to_sns(self, sns_topic_arn)`). -/
inductive SnsEvent where
  | publish : String → String → SnsEvent
  deriving DecidableEq, Repr

/-- `BinaryInfo.save_matches_and_alert`: call
`DynamoMatchTable(...).save_matches(self, analyzer_version)` (the oracle
`save`, which either returns `needs_alert` or raises) and, only when
`needs_alert` is true, publish an alert to SNS.  A raise from the save
step propagates and nothing is published.  The result is the list of SNS
publications performed and the propagated error if any. -/
def BinaryInfo.save_matches_and_alert (b : BinaryInfo) (analyzer_version : Nat)
    (save : BinaryInfo → Nat → Except PersistErr Bool) (sns_topic_arn : String) :
    List SnsEvent × Option PersistErr :=
  match save b analyzer_version with
  | .error e => ([], some e)
  | .ok needs_alert =>
    if needs_alert then ([.publish b.s3_identifier sns_topic_arn], none)
    else ([], none)

/-- Two matches that agree on everything except the order in which the
engine listed the matched strings: this is the engine-introduced
nondeterminism that `summary` must normalize away. -/
def MatchEquivUpToStringOrder (m1 m2 : YaraMatch) : Prop :=
  m1.ns = m2.ns ∧ m1.rule = m2.rule ∧ m1.strings.Perm m2.strings ∧
  m1.meta = m2.meta ∧ m1.tags = m2.tags

lemma exists_mem_enumFrom {α : Type} {m : α} {l : List α} (h : m ∈ l) (n : Nat) :
    ∃ i, (i, m) ∈ l.enumFrom n := by
  induction l generalizing n with
  | nil => cases h
  | cons a l ih =>
    rcases List.mem_cons.mp h with h | h
    · exact ⟨n, by simp [List.enumFrom, h]⟩
    · obtain ⟨i, hi⟩ := ih h (n + 1)
      exact ⟨i, by simp [List.enumFrom, Or.inr hi]⟩

/-- Claim C1: `save_matches_and_alert` publishes to SNS exactly when the
conditional save returned `needs_alert = true`, and a persistence failure
propagates with no publication. -/
theorem save_matches_and_alert_publishes_iff_needs_alert
    (b : BinaryInfo) (v : Nat) (save : BinaryInfo → Nat → Except PersistErr Bool)
    (topic : String) :
    ((b.save_matches_and_alert v save topic).1 ≠ [] ↔ save b v = .ok true) ∧
    (save b v = .ok true →
      (b.save_matches_and_alert v save topic).1 = [.publish b.s3_identifier topic]) ∧
    (∀ e, save b v = .error e →
      b.save_matches_and_alert v save topic = ([], some e)) := by
  unfold BinaryInfo.save_matches_and_alert
  refine ⟨?_, ?_, ?_⟩
  · cases h : save b v with
    | error e => simp
    | ok na => cases na <;> simp
  · intro h; rw [h]; simp
  · intro e h; rw [h]

theorem save_matches_and_alert_publishes_iff_needs_alert_witness :
    ((BinaryInfo.init "b" "k" "/tmp" "u").save_matches_and_alert 1
        (fun _ _ => .ok true) "topic").1 =
      [.publish (BinaryInfo.init "b" "k" "/tmp" "u").s3_identifier "topic"] :=
  (save_matches_and_alert_publishes_iff_needs_alert
    (BinaryInfo.init "b" "k" "/tmp" "u") 1 (fun _ _ => .ok true) "topic").2.1 rfl

/-- Claim C2: `matched_rule_ids` is the set of strings
`namespace ++ ":" ++ rule` over the match list — it contains exactly the
formatted identifiers of the matches and nothing else, and a repeated
occurrence of the same match adds nothing. -/
theorem matched_rule_ids_exact (b : BinaryInfo) :
    (∀ s, s ∈ b.matched_rule_ids ↔ ∃ m ∈ b.yara_matches, s = m.ns ++ ":" ++ m.rule) ∧
    (∀ (ms : List YaraMatch) (m : YaraMatch), m ∈ ms →
      BinaryInfo.matched_rule_ids { b with yara_matches := m :: ms } =
        BinaryInfo.matched_rule_ids { b with yara_matches := ms }) := by
  constructor
  · intro s
    unfold BinaryInfo.matched_rule_ids
    simp [eq_comm]
  · intro ms m hm
    unfold BinaryInfo.matched_rule_ids
    simp only [List.map_cons, List.toFinset_cons]
    apply Finset.insert_eq_self.mpr
    simp only [List.mem_toFinset, List.mem_map]
    exact ⟨m, hm, rfl⟩

theorem matched_rule_ids_exact_witness :
    BinaryInfo.matched_rule_ids
        { BinaryInfo.init "b" "k" "/tmp" "u" with
          yara_matches := [⟨"rules.yar", "evil", [], [], []⟩,
                           ⟨"rules.yar", "evil", [], [], []⟩] } =
      BinaryInfo.matched_rule_ids
        { BinaryInfo.init "b" "k" "/tmp" "u" with
          yara_matches := [⟨"rules.yar", "evil", [], [], []⟩] } :=
  (matched_rule_ids_exact (BinaryInfo.init "b" "k" "/tmp" "u")).2
    [⟨"rules.yar", "evil", [], [], []⟩] ⟨"rules.yar", "evil", [], [], []⟩
    (by simp)

/-- Claim C10: `filepath` is total — it is the value under the key
"filepath" of the S3 metadata when present and the empty string when
absent — and it is exactly the hint `__enter__` passes to the YARA
engine as `original_target_path`. -/
theorem filepath_total_and_passed_to_engine (b : BinaryInfo)
    (lm : String) (md : List (String × String)) (t : Nat)
    (sh : String × String)
    (analyze : String → Except AnalyzerErr (List YaraMatch)) :
    (∀ v, b.s3_metadata.lookup "filepath" = some v → b.filepath = v) ∧
    (b.s3_metadata.lookup "filepath" = none → b.filepath = "") ∧
    ((b.enter (.ok (lm, md, t)) (.ok sh) analyze).2.1 =
      [.download, .hash, .scan ((md.lookup "filepath").getD "")]) := by
  refine ⟨?_, ?_, ?_⟩
  · intro v hv; unfold BinaryInfo.filepath; rw [hv]; rfl
  · intro hv; unfold BinaryInfo.filepath; rw [hv]; rfl
  · cases hA : analyze ((md.lookup "filepath").getD "") <;>
      simp [BinaryInfo.enter, BinaryInfo.filepath, hA]

theorem filepath_total_and_passed_to_engine_witness :
    (BinaryInfo.init "b" "k" "/tmp" "u").filepath = "" :=
  (filepath_total_and_passed_to_engine (BinaryInfo.init "b" "k" "/tmp" "u")
    "lm" [("filepath", "/orig/path")] 3 ("sha", "md5") (fun _ => .ok [])).2.1 rfl

/-- Claim C5: when the cleanup I/O succeeds, `__exit__` leaves the
download path nonexistent; when the path exists it is truncated first and
then removed; when the path does not exist `__exit__` is a silent no-op;
and a second run after a successful run is again a silent no-op, so
`__exit__` is idempotent. -/
theorem exit_removes_path_and_is_idempotent (b : BinaryInfo) (fs : FS) :
    ((b.exit fs true true).1 b.download_path = none) ∧
    ((fs b.download_path).isSome = true →
      b.exit fs true true =
        (removeFile (truncateFile fs b.download_path) b.download_path, none)) ∧
    (fs b.download_path = none → ∀ t r, b.exit fs t r = (fs, none)) ∧
    (∀ t r, b.exit (b.exit fs true true).1 t r = ((b.exit fs true true).1, none)) := by
  have habsent : ∀ (g : FS), g b.download_path = none →
      ∀ t r, b.exit g t r = (g, none) := by
    intro g hg t r
    unfold BinaryInfo.exit
    rw [hg]
    rfl
  have hgone : (b.exit fs true true).1 b.download_path = none := by
    unfold BinaryInfo.exit
    by_cases h : (fs b.download_path).isSome
    · simp only [h, if_true]
      simp [removeFile]
    · simp only [h, if_false]
      exact Option.not_isSome_iff_eq_none.mp h
  refine ⟨hgone, ?_, habsent fs, fun t r => habsent _ hgone t r⟩
  intro h
  unfold BinaryInfo.exit
  simp only [h, if_true]

theorem exit_removes_path_and_is_idempotent_witness :
    (BinaryInfo.init "b" "k" "/tmp" "u").exit
        (fun p => if p = "/tmp/binaryalert_u" then some [7] else none) true true =
      (removeFile
        (truncateFile (fun p => if p = "/tmp/binaryalert_u" then some [7] else none)
          (BinaryInfo.init "b" "k" "/tmp" "u").download_path)
        (BinaryInfo.init "b" "k" "/tmp" "u").download_path, none) :=
  (exit_removes_path_and_is_idempotent (BinaryInfo.init "b" "k" "/tmp" "u")
    (fun p => if p = "/tmp/binaryalert_u" then some [7] else none)).2.1 (by rfl)

/-- Claim C6 counterexample: with the file present and the remove step
failing, `__exit__` propagates the failure to the caller (there is no
exception handler in `__exit__`), contradicting the claim that cleanup
failures are only logged and never raised out of `__exit__`. -/
theorem exit_raises_on_cleanup_failure_counterexample :
    ((BinaryInfo.init "b" "k" "/tmp" "u").exit
        (fun p => if p = "/tmp/binaryalert_u" then some [7] else none)
        true false).2 = some CleanupErr.removeFailed := by
  rfl

/-- Claim C6 (amended): if the cleanup I/O fails while truncating or
removing an existing local file, `__exit__` propagates that failure to
the caller — the method contains no handler, so nothing is caught or
logged. -/
theorem exit_propagates_cleanup_failure (b : BinaryInfo) (fs : FS)
    (hfile : (fs b.download_path).isSome = true) :
    (∀ r, (b.exit fs false r).2 = some CleanupErr.truncateFailed) ∧
    ((b.exit fs true false).2 = some CleanupErr.removeFailed) := by
  constructor
  · intro r
    unfold BinaryInfo.exit
    simp only [hfile, if_true]
    rfl
  · unfold BinaryInfo.exit
    simp only [hfile, if_true]
    rfl

theorem exit_propagates_cleanup_failure_witness :
    ((BinaryInfo.init "b" "k" "/tmp" "u").exit
        (fun p => if p = "/tmp/binaryalert_u" then some [7] else none)
        false true).2 = some CleanupErr.truncateFailed :=
  (exit_propagates_cleanup_failure (BinaryInfo.init "b" "k" "/tmp" "u")
    (fun p => if p = "/tmp/binaryalert_u" then some [7] else none) (by rfl)).1 true

/-- Claim C7: a failure in any sub-step of `__enter__` propagates to the
caller and leaves the later-stage fields unset.  A download failure
leaves the record untouched (for a fresh record both digests are `none`
and the match list empty) and neither hashing nor the scan is invoked; a
hashing failure leaves both digests and the match list untouched and the
scan uninvoked; a scan failure leaves the match list untouched. -/
theorem enter_failure_propagates (bn okey td u : String) (b : BinaryInfo)
    (e : AnalyzerErr) (lm : String) (md : List (String × String)) (t : Nat)
    (sh : String × String)
    (hashes : Except AnalyzerErr (String × String))
    (analyze : String → Except AnalyzerErr (List YaraMatch)) :
    ((BinaryInfo.init bn okey td u).computed_md5 = none ∧
      (BinaryInfo.init bn okey td u).computed_sha = none ∧
      (BinaryInfo.init bn okey td u).yara_matches = []) ∧
    (b.enter (.error e) hashes analyze = (b, [Step.download], some e)) ∧
    (b.enter (.ok (lm, md, t)) (.error e) analyze =
      ({ b with s3_last_modified := lm, s3_metadata := md, download_time_ms := t },
        [Step.download, Step.hash], some e)) ∧
    (analyze ((md.lookup "filepath").getD "") = .error e →
      b.enter (.ok (lm, md, t)) (.ok sh) analyze =
        ({ b with
            s3_last_modified := lm, s3_metadata := md, download_time_ms := t,
            computed_sha := some sh.1, computed_md5 := some sh.2 },
          [Step.download, Step.hash, Step.scan ((md.lookup "filepath").getD "")],
          some e)) := by
  refine ⟨⟨rfl, rfl, rfl⟩, rfl, rfl, ?_⟩
  intro hA
  simp [BinaryInfo.enter, BinaryInfo.filepath, hA]

theorem enter_failure_propagates_witness :
    (BinaryInfo.init "b" "k" "/tmp" "u").enter
        (.ok ("lm", [], 3)) (.ok ("sha", "md5")) (fun _ => .error .engineFailure) =
      ({ BinaryInfo.init "b" "k" "/tmp" "u" with
          s3_last_modified := "lm", s3_metadata := [], download_time_ms := 3,
          computed_sha := some "sha", computed_md5 := some "md5" },
        [Step.download, Step.hash, Step.scan ""], some .engineFailure) :=
  (enter_failure_propagates "b" "k" "/tmp" "u" (BinaryInfo.init "b" "k" "/tmp" "u")
    .engineFailure "lm" [] 3 ("sha", "md5") (.ok ("sha", "md5"))
    (fun _ => .error .engineFailure)).2.2.2 rfl

/-- Claim C9: the S3 identifier is exactly `S3:` ++ bucket ++ `:` ++ key, fixed at
construction; `__enter__` never changes it (nor the bucket name or object
key) in any of its branches; it is the string representation of the record and
it is the `S3Location` field inside `FileInfo` of every summary. -/
theorem s3_identifier_invariant (bn okey td u : String) (b : BinaryInfo)
    (download : Except AnalyzerErr (String × List (String × String) × Nat))
    (hashes : Except AnalyzerErr (String × String))
    (analyze : String → Except AnalyzerErr (List YaraMatch)) :
    ((BinaryInfo.init bn okey td u).s3_identifier = "S3:" ++ bn ++ ":" ++ okey) ∧
    (((b.enter download hashes analyze).1).s3_identifier = b.s3_identifier ∧
      ((b.enter download hashes analyze).1).bucket_name = b.bucket_name ∧
      ((b.enter download hashes analyze).1).object_key = b.object_key) ∧
    (b.strRepr = b.s3_identifier) ∧
    ((b.summary.get "FileInfo").bind (fun f => f.get "S3Location") =
      some (.str b.s3_identifier)) := by
  refine ⟨rfl, ?_, rfl, ?_⟩
  · rcases download with e | ⟨lm, md, t⟩
    · exact ⟨rfl, rfl, rfl⟩
    · rcases hashes with e | sh
      · exact ⟨rfl, rfl, rfl⟩
      · rcases hA : analyze ((md.lookup "filepath").getD "") with e | ms <;>
          simp [BinaryInfo.enter, BinaryInfo.filepath, hA]
  · rfl

theorem s3_identifier_invariant_witness :
    (BinaryInfo.init "b" "k" "/tmp" "u").s3_identifier = "S3:" ++ "b" ++ ":" ++ "k" :=
  (s3_identifier_invariant "b" "k" "/tmp" "u" (BinaryInfo.init "b" "k" "/tmp" "u")
    (.error .notFound) (.error .ioFailure) (fun _ => .ok [])).1

lemma matchedRules_keys (ms : List YaraMatch) (n : Nat) :
    ((ms.enumFrom n).map fun im => ("Rule" ++ toString im.1, im.2.ruleBlock)).map Prod.fst
      = (List.range' n ms.length).map fun i => "Rule" ++ toString i := by
  rw [List.map_map, ← List.enumFrom_map_fst n ms, List.map_map]
  rfl

/-- Claim C4: the summary has exactly the top-level keys `FileInfo`
(itself with exactly the keys `MD5`, `S3LastModified`, `S3Location`,
`S3Metadata`, `SHA256`), `MatchedRules` and `NumMatchedRules`; the keys
of `MatchedRules` are `Rule1`, `Rule2`, … in engine order (the labels
`Rule ++ toString i` for `i` in `range' 1 n`, the 1-based positions);
each per-rule block has exactly the keys `MatchedStrings`, `Meta`,
`RuleFile`, `RuleName`, `RuleTags`; and `NumMatchedRules` is the length
of the match list, so zero matches give `NumMatchedRules = 0` and an
empty `MatchedRules` object. -/
theorem summary_schema (b : BinaryInfo) :
    b.summary.keys = ["FileInfo", "MatchedRules", "NumMatchedRules"] ∧
    (b.summary.get "FileInfo").map Json.keys =
      some ["MD5", "S3LastModified", "S3Location", "S3Metadata", "SHA256"] ∧
    (∃ kvs, b.summary.get "MatchedRules" = some (.obj kvs) ∧
      kvs.map Prod.fst =
        (List.range' 1 b.yara_matches.length).map (fun i => "Rule" ++ toString i) ∧
      ∀ kv ∈ kvs, Json.keys kv.2 =
        ["MatchedStrings", "Meta", "RuleFile", "RuleName", "RuleTags"]) ∧
    (b.summary.get "NumMatchedRules" = some (.num (b.yara_matches.length : Int))) ∧
    (b.yara_matches = [] →
      b.summary.get "MatchedRules" = some (.obj []) ∧
      b.summary.get "NumMatchedRules" = some (.num 0)) := by
  refine ⟨rfl, rfl,
    ⟨(b.yara_matches.enumFrom 1).map
        fun im : Nat × YaraMatch => ("Rule" ++ toString im.1, im.2.ruleBlock),
      rfl, matchedRules_keys b.yara_matches 1, ?_⟩, rfl, ?_⟩
  · intro kv hkv
    obtain ⟨im, _, rfl⟩ := List.mem_map.mp hkv
    rfl
  · intro hempty
    rw [show b.summary = BinaryInfo.summary b from rfl]
    unfold BinaryInfo.summary
    rw [hempty]
    exact ⟨rfl, rfl⟩

/-- Claim C3: for every match of a record, the `MatchedStrings` list in
its rule block (which appears among the `MatchedRules` values of the summary)
is sorted, has no duplicates, and contains exactly the distinct matched
string identifiers (`t[1]` of the string tuples of the match). -/
theorem matchedStrings_sorted_nodup_exact (b : BinaryInfo) (m : YaraMatch)
    (hm : m ∈ b.yara_matches) :
    (∃ kvs, b.summary.get "MatchedRules" = some (.obj kvs) ∧
      ∃ kv ∈ kvs, kv.2 = m.ruleBlock) ∧
    (m.ruleBlock.get "MatchedStrings" = some (.arr (m.matchedStrings.map Json.str))) ∧
    List.Sorted (fun a b => a ≤ b) m.matchedStrings ∧
    m.matchedStrings.Nodup ∧
    (∀ s, s ∈ m.matchedStrings ↔ s ∈ m.strings.map fun t => t.2.1) := by
  refine ⟨⟨_, rfl, ?_⟩, rfl, List.sorted_insertionSort _ _, ?_, ?_⟩
  · obtain ⟨i, hi⟩ := exists_mem_enumFrom hm 1
    exact ⟨("Rule" ++ toString i, m.ruleBlock), List.mem_map.mpr ⟨(i, m), hi, rfl⟩, rfl⟩
  · exact ((List.perm_insertionSort _ _).nodup_iff).mpr (List.nodup_dedup _)
  · intro s
    unfold YaraMatch.matchedStrings
    rw [List.mem_insertionSort, List.mem_dedup]

theorem matchedStrings_sorted_nodup_exact_witness :
    List.Sorted (fun a b => a ≤ b)
      (YaraMatch.matchedStrings
        ⟨"rules.yar", "evil", [(0, "$s2", "x"), (0, "$s1", "y"), (0, "$s1", "y")],
          [], []⟩) :=
  (matchedStrings_sorted_nodup_exact
    { BinaryInfo.init "b" "k" "/tmp" "u" with
      yara_matches :=
        [⟨"rules.yar", "evil", [(0, "$s2", "x"), (0, "$s1", "y"), (0, "$s1", "y")],
          [], []⟩] }
    ⟨"rules.yar", "evil", [(0, "$s2", "x"), (0, "$s1", "y"), (0, "$s1", "y")], [], []⟩
    (by simp)).2.2.1

lemma ruleBlock_eq_of_equiv {m1 m2 : YaraMatch}
    (h : MatchEquivUpToStringOrder m1 m2) : m1.ruleBlock = m2.ruleBlock := by
  obtain ⟨hns, hrule, hperm, hmeta, htags⟩ := h
  have hms : m1.matchedStrings = m2.matchedStrings := by
    unfold YaraMatch.matchedStrings
    exact List.eq_of_perm_of_sorted
      (((List.perm_insertionSort _ _).trans ((hperm.map _).dedup)).trans
        (List.perm_insertionSort _ _).symm)
      (List.sorted_insertionSort _ _) (List.sorted_insertionSort _ _)
  unfold YaraMatch.ruleBlock
  rw [hms, hns, hrule, hmeta, htags]

lemma enumFrom_blocks_eq {ms1 ms2 : List YaraMatch}
    (h : List.Forall₂ MatchEquivUpToStringOrder ms1 ms2) (n : Nat) :
    (ms1.enumFrom n).map (fun im => ("Rule" ++ toString im.1, im.2.ruleBlock))
      = (ms2.enumFrom n).map (fun im => ("Rule" ++ toString im.1, im.2.ruleBlock)) := by
  induction h generalizing n with
  | nil => rfl
  | cons h1 _ ih =>
    simp only [List.enumFrom, List.map_cons]
    rw [ruleBlock_eq_of_equiv h1, ih (n + 1)]

/-- Claim C8: `summary` is deterministic — it is a pure function of the
record state, and the one engine-introduced nondeterminism, the order of
the matched-string identifiers inside each match, is normalized away by
the explicit sort: summaries of two states whose match lists agree up to
matched-string order are identical. -/
theorem summary_deterministic (b : BinaryInfo) (ms1 ms2 : List YaraMatch)
    (h : List.Forall₂ MatchEquivUpToStringOrder ms1 ms2) :
    BinaryInfo.summary { b with yara_matches := ms1 } =
      BinaryInfo.summary { b with yara_matches := ms2 } := by
  simp only [BinaryInfo.summary]
  rw [enumFrom_blocks_eq h 1, h.length_eq]

theorem summary_deterministic_witness :
    BinaryInfo.summary
        { BinaryInfo.init "b" "k" "/tmp" "u" with
          yara_matches :=
            [⟨"rules.yar", "evil", [(0, "$s2", "x"), (0, "$s1", "y")], [], []⟩] } =
      BinaryInfo.summary
        { BinaryInfo.init "b" "k" "/tmp" "u" with
          yara_matches :=
            [⟨"rules.yar", "evil", [(0, "$s1", "y"), (0, "$s2", "x")], [], []⟩] } :=
  summary_deterministic (BinaryInfo.init "b" "k" "/tmp" "u")
    [⟨"rules.yar", "evil", [(0, "$s2", "x"), (0, "$s1", "y")], [], []⟩]
    [⟨"rules.yar", "evil", [(0, "$s1", "y"), (0, "$s2", "x")], [], []⟩]
    (List.Forall₂.cons ⟨rfl, rfl, List.Perm.swap _ _ _, rfl, rfl⟩ List.Forall₂.nil)

theorem summary_schema_witness :
    (BinaryInfo.init "b" "k" "/tmp" "u").summary.get "NumMatchedRules" =
      some (.num 0) :=
  ((summary_schema (BinaryInfo.init "b" "k" "/tmp" "u")).2.2.2.2 rfl).2
